import Mathlib

/-!
Verification of the Flight-Tracker-Pi repository against its specification.

The Python sources are shallowly embedded: Python floats are idealised as
exact rationals (`ℚ`), Python ints as `ℤ`, JSON values as the inductive
`JVal`, and fallible code as `Except`/`Option`.  Network access is an
oracle input (`FetchOutcome`): the feed response is an argument rather
than an effect.  The trigonometric haversine distance of
`flight_tracker.py` is embedded over `ℝ` as `haversineR`; the list
pipeline of `get_nearby_flights` is parametrised by the distance function
`dist` so that its filtering/sorting behaviour is proved for every
distance function, the code's haversine instance included.
-/

/-! ## Python value semantics -/

/-- JSON values as decoded by Python's `response.json()`: `None`, booleans,
numbers (idealised as `ℚ`), strings, arrays and objects. -/
inductive JVal where
  | jnull : JVal
  | jbool (b : Bool) : JVal
  | jnum (q : ℚ) : JVal
  | jstr (s : String) : JVal
  | jlist (l : List JVal) : JVal
  | jobj (fields : List (String × JVal)) : JVal

/-- Python truthiness of a JSON value: `None`, `False`, `0`, `''`, `[]` and
`\x7b\x7d` are falsy, everything else truthy. -/
def truthy : JVal → Bool
  | .jnull => false
  | .jbool b => b
  | .jnum q => decide (q ≠ 0)
  | .jstr s => !s.isEmpty
  | .jlist l => !l.isEmpty
  | .jobj f => !f.isEmpty

/-- Exceptions that the per-entry `try` block of `get_nearby_flights`
catches (`IndexError` cannot arise: every subscript is guarded by a
length check). -/
inductive PyExn where
  | typeError : PyExn
  | valueError : PyExn
deriving DecidableEq

deriving instance DecidableEq for Except

/-- Numeric value of a list of decimal digit characters; `none` when the
list is empty or contains a non-digit. -/
def digitsVal (cs : List Char) : Option ℕ :=
  if cs.isEmpty then none
  else if cs.all (·.isDigit) then
    some (cs.foldl (fun acc c => 10 * acc + (c.toNat - 48)) 0)
  else none

/-- Unsigned decimal literal, `digits` or `digits.digits`. -/
def parseUnsigned (cs : List Char) : Option ℚ :=
  match cs.splitOn '.' with
  | [intPart] => (digitsVal intPart).map (fun n => (n : ℚ))
  | [intPart, fracPart] =>
    match digitsVal intPart, digitsVal fracPart with
    | some a, some b => some ((a : ℚ) + (b : ℚ) / ((10 : ℚ) ^ fracPart.length))
    | _, _ => none
  | _ => none

/-- Python `float(str)` on plain decimal literals with an optional sign and
surrounding whitespace (the exotic `float` spellings `inf`, `nan`, `1e3`,
`1.`, `.5` never occur in the feeds and are not modelled). -/
def parseFloatLit (s : String) : Option ℚ :=
  match s.trim.toList with
  | '-' :: rest => (parseUnsigned rest).map (fun q => -q)
  | '+' :: rest => parseUnsigned rest
  | cs => parseUnsigned cs

/-- Python `int(str)` on decimal integer literals with an optional sign. -/
def parseIntLit (s : String) : Option ℤ :=
  match s.trim.toList with
  | '-' :: rest => (digitsVal rest).map (fun n => -(n : ℤ))
  | '+' :: rest => (digitsVal rest).map (fun n => (n : ℤ))
  | cs => (digitsVal cs).map (fun n => (n : ℤ))

/-- Python `float(x)`: numbers pass through, booleans become 0/1, strings
are parsed (`ValueError` on failure), `None`/lists/dicts raise `TypeError`. -/
def pyFloat : JVal → Except PyExn ℚ
  | .jnull => .error .typeError
  | .jbool b => .ok (if b then 1 else 0)
  | .jnum q => .ok q
  | .jstr s =>
    match parseFloatLit s with
    | some q => .ok q
    | none => .error .valueError
  | .jlist _ => .error .typeError
  | .jobj _ => .error .typeError

/-- Floor of a rational, written so that it evaluates by kernel reduction
(`Int` division is Euclidean, hence floor division for the positive
denominator); equal to `⌊q⌋` by `ratFloor_eq_floor` below. -/
def ratFloor (q : ℚ) : ℤ := q.num / (q.den : ℤ)

/-- Python `int(float)`: truncation toward zero. -/
def pyTrunc (q : ℚ) : ℤ := if 0 ≤ q then ratFloor q else -(ratFloor (-q))

/-- Python `int(x)` coercion as used by the decoder. -/
def pyInt : JVal → Except PyExn ℤ
  | .jnull => .error .typeError
  | .jbool b => .ok (if b then 1 else 0)
  | .jnum q => .ok (pyTrunc q)
  | .jstr s =>
    match parseIntLit s with
    | some n => .ok n
    | none => .error .valueError
  | .jlist _ => .error .typeError
  | .jobj _ => .error .typeError

/-- Python `str(x)`.  The exact textual rendering of numbers and composite
values is abstracted (it never influences control flow; the code only ever
tests the result for emptiness, and `str` of a truthy value is never the
empty string, which the placeholders preserve). -/
def pyStr : JVal → String
  | .jnull => "None"
  | .jbool b => if b then "True" else "False"
  | .jnum q => toString q
  | .jstr s => s
  | .jlist _ => "<list>"
  | .jobj _ => "<dict>"

/-- Round-half-to-even to an integer, the rounding used by Python's
built-in `round`. -/
def roundHalfEven (q : ℚ) : ℤ :=
  if q - (ratFloor q : ℚ) < 1/2 then ratFloor q
  else if (1:ℚ)/2 < q - (ratFloor q : ℚ) then ratFloor q + 1
  else if ratFloor q % 2 = 0 then ratFloor q else ratFloor q + 1

/-- Python `round(x, 1)` (idealised over exact rationals). -/
def pythonRound1 (q : ℚ) : ℚ := (roundHalfEven (q * 10) : ℚ) / 10

/-! ## flight_tracker.py : data model and decoding -/

/-- The `FlightInfo` dataclass of `flight_tracker.py`. -/
structure FlightInfo where
  flight_number : String
  callsign : String
  aircraft_type : String
  airline : String
  origin : String
  destination : String
  altitude_ft : ℤ
  ground_speed_kts : ℤ
  heading : ℤ
  latitude : ℚ
  longitude : ℚ
  vertical_speed : ℤ
  distance_km : ℚ
  registration : String
  squawk : String
deriving DecidableEq

/-- Embeds `str(value[k]) if len(value) > k and value[k] else dflt`. -/
def strField (l : List JVal) (k : ℕ) (dflt : String) : String :=
  if k < l.length ∧ truthy (l.getD k .jnull) = true then pyStr (l.getD k .jnull)
  else dflt

/-- Embeds `int(value[k]) if len(value) > k and value[k] else 0`. -/
def intField (l : List JVal) (k : ℕ) : Except PyExn ℤ :=
  if k < l.length ∧ truthy (l.getD k .jnull) = true then pyInt (l.getD k .jnull)
  else .ok 0

/-- Embeds `float(value[k]) if value[k] else 0`, the coordinate decoding of the
feed entry (`k` is 1 for latitude, 2 for longitude; `len(value) >= 14` is
already established by the caller). -/
def coordField (l : List JVal) (k : ℕ) : Except PyExn ℚ :=
  if truthy (l.getD k .jnull) = true then pyFloat (l.getD k .jnull)
  else .ok 0

/-- Body of the per-entry `try` block of `get_nearby_flights`, for an entry
already known to be a list of length at least 14.  `ok none` models a
`continue` (position sentinel or radius filter), `error` a raised
`TypeError`/`ValueError` (the `except` clause then skips the entry). -/
def decodeFields (dist : ℚ → ℚ → ℚ → ℚ → ℚ) (obsLat obsLon radius : ℚ)
    (l : List JVal) : Except PyExn (Option FlightInfo) :=
  match coordField l 1 with
  | .error e => .error e
  | .ok lat =>
    match coordField l 2 with
    | .error e => .error e
    | .ok lon =>
      if lat = 0 ∧ lon = 0 then .ok none
      else
        let distance := dist obsLat obsLon lat lon
        if radius < distance then .ok none
        else
          let flight_number := strField l 13 ("")
          let callsign := strField l 16 flight_number
          let aircraft_type := strField l 8 ("Unknown")
          let airline := strField l 18 ("")
          let origin := strField l 11 ("???")
          let destination := strField l 12 ("???")
          match intField l 4, intField l 5, intField l 3, intField l 15 with
          | .error e, _, _, _ => .error e
          | _, .error e, _, _ => .error e
          | _, _, .error e, _ => .error e
          | _, _, _, .error e => .error e
          | .ok altitude, .ok speed, .ok heading, .ok vertical_speed =>
            let registration := strField l 9 ("")
            let squawk := strField l 6 ("")
            let flight_number2 :=
              if flight_number = "" then
                (if callsign = "" then "Unknown" else callsign)
              else flight_number
            .ok (some {
              flight_number := flight_number2, callsign := callsign,
              aircraft_type := aircraft_type, airline := airline,
              origin := origin, destination := destination,
              altitude_ft := altitude, ground_speed_kts := speed,
              heading := heading, latitude := lat, longitude := lon,
              vertical_speed := vertical_speed,
              distance_km := pythonRound1 distance,
              registration := registration, squawk := squawk })

/-- One iteration of the entry loop of `get_nearby_flights`: non-lists and
short lists are skipped, and any caught exception inside the `try` block
also skips the entry. -/
def processEntry (dist : ℚ → ℚ → ℚ → ℚ → ℚ) (obsLat obsLon radius : ℚ) :
    JVal → Option FlightInfo
  | .jlist l =>
    if l.length < 14 then none
    else
      match decodeFields dist obsLat obsLon radius l with
      | .ok r => r
      | .error _ => none
  | _ => none

/-- Outcome of the HTTP fetch in `get_nearby_flights`: a raised
`requests.RequestException`, a `ValueError` from `.json()`, or a decoded
JSON document. -/
inductive FetchOutcome where
  | requestError : FetchOutcome
  | jsonError : FetchOutcome
  | success (data : JVal) : FetchOutcome

/-- The only exception `get_nearby_flights` itself can raise past its
boundary: `data.items()` on a non-dict JSON document. -/
inductive PyErr where
  | attributeError : PyErr
deriving DecidableEq

/-- Comparison key of the final `nearby_flights.sort(key=lambda f:
f.distance_km)`. -/
def distLe (a b : FlightInfo) : Prop := a.distance_km ≤ b.distance_km

instance : DecidableRel distLe :=
  fun a b => inferInstanceAs (Decidable (a.distance_km ≤ b.distance_km))

instance : IsTotal FlightInfo distLe :=
  ⟨fun a b => le_total a.distance_km b.distance_km⟩

instance : IsTrans FlightInfo distLe :=
  ⟨fun _ _ _ hab hbc => le_trans hab hbc⟩

/-- Embeds `FlightTracker.get_nearby_flights`, parametrised by the distance
function `dist` (the code instantiates it with the haversine formula,
embedded over `ℝ` as `haversineR` below).  Request and JSON-decoding
failures are caught and yield `[]`; the entry loop skips malformed
entries; the surviving records are sorted ascending by `distance_km`
(Python's stable `list.sort` is modelled by the stable insertion sort).
A JSON document that is not an object makes `data.items()` raise an
`AttributeError` that nothing in the function catches. -/
def get_nearby_flights (dist : ℚ → ℚ → ℚ → ℚ → ℚ) (lat lon radius : ℚ) :
    FetchOutcome → Except PyErr (List FlightInfo)
  | .requestError => .ok []
  | .jsonError => .ok []
  | .success (.jobj items) =>
    .ok (List.insertionSort distLe
      (items.filterMap (fun kv => processEntry dist lat lon radius kv.2)))
  | .success _ => .error .attributeError

/-! ## flight_tracker.py : the haversine distance, over the reals -/

/-- Embeds `math.radians`. -/
noncomputable def radiansR (x : ℝ) : ℝ := x * (Real.pi / 180)

/-- Embeds `math.atan2` (standard library semantics, defined piecewise from
`arctan`). -/
noncomputable def atan2R (y x : ℝ) : ℝ :=
  if 0 < x then Real.arctan (y / x)
  else if x < 0 ∧ 0 ≤ y then Real.arctan (y / x) + Real.pi
  else if x < 0 ∧ y < 0 then Real.arctan (y / x) - Real.pi
  else if x = 0 ∧ 0 < y then Real.pi / 2
  else if x = 0 ∧ y < 0 then -(Real.pi / 2)
  else 0

/-- Embeds `FlightTracker._haversine_distance`, over the reals. -/
noncomputable def haversineR (lat1 lon1 lat2 lon2 : ℝ) : ℝ :=
  let R : ℝ := 6371
  let lat1_rad := radiansR lat1
  let lat2_rad := radiansR lat2
  let delta_lat := radiansR (lat2 - lat1)
  let delta_lon := radiansR (lon2 - lon1)
  let a := Real.sin (delta_lat / 2) ^ 2 +
    Real.cos lat1_rad * Real.cos lat2_rad * Real.sin (delta_lon / 2) ^ 2
  let c := 2 * atan2R (Real.sqrt a) (Real.sqrt (1 - a))
  R * c

/-! ## weather.py : WeatherClient cache -/

/-- The `WeatherInfo` dataclass of `weather.py`. -/
structure WeatherInfo where
  temperature_c : ℚ
  temperature_f : ℚ
  feels_like_c : ℚ
  humidity : ℤ
  wind_speed_kmh : ℚ
  wind_direction : ℤ
  wind_gusts_kmh : ℚ
  pressure_hpa : ℚ
  weather_code : ℤ
  weather_description : String
  is_day : Bool
  sunrise : String
  sunset : String
  temp_max_c : ℚ
  temp_min_c : ℚ
  precipitation_mm : ℚ
  last_updated : ℚ
deriving DecidableEq

/-- Mutable state of a `WeatherClient`: the single-value cache and its
timestamp (`cache_duration` is set once in `__init__`). -/
structure WeatherClientState where
  cache_duration : ℚ
  cached_weather : Option WeatherInfo
  last_fetch : ℚ
deriving DecidableEq

/-- Embeds `WeatherClient.get_weather`.  Here `now` is the value of `time.time()` at
the head of the call and `fetch_result` is the oracle outcome of
`_fetch_weather` (`none` models a request/parse failure); the returned
`Bool` records whether the network was accessed at all, i.e. whether
`_fetch_weather` was called.  Result: returned value, successor state,
fetch flag. -/
def get_weather (s : WeatherClientState) (now : ℚ) (force_refresh : Bool)
    (fetch_result : Option WeatherInfo) :
    Option WeatherInfo × WeatherClientState × Bool :=
  if force_refresh = false ∧ s.cached_weather.isSome = true ∧
      now - s.last_fetch < s.cache_duration then
    (s.cached_weather, s, false)
  else
    match fetch_result with
    | some w =>
      (some w, { s with cached_weather := some w, last_fetch := now }, true)
    | none => (s.cached_weather, s, true)

/-! ## touch.py : SimpleTouchDetector debouncing -/

/-- Mutable state of a `SimpleTouchDetector` (`debounce_ms` is set to 300
in `__init__` and never changed). -/
structure TouchDetectorState where
  last_tap_time : ℚ
  debounce_ms : ℚ
deriving DecidableEq

/-- Embeds `SimpleTouchDetector._on_touch`, fired on every touch-up; `now_ms` is
`time.time() * 1000`.  The returned `Bool` is whether the wrapped callback
was invoked (a callback is installed by the application). -/
def on_touch (s : TouchDetectorState) (now_ms : ℚ) : TouchDetectorState × Bool :=
  if s.debounce_ms < now_ms - s.last_tap_time then
    ({ s with last_tap_time := now_ms }, true)
  else (s, false)

/-! ## main.py : orchestrator state machine -/

/-- The orchestrator state touched by `_check_flights` and `_on_tap`
(`selected_flight_index` is a Python `int`, hence `ℤ`). -/
structure AppState where
  current_flights : List FlightInfo
  selected_flight_index : ℤ
  last_flight_check : ℚ
deriving DecidableEq

/-- Embeds `FlightTrackerApp.__init__`: no flights, index 0, never polled. -/
def initialAppState : AppState :=
  { current_flights := [], selected_flight_index := 0, last_flight_check := 0 }

/-- Embeds `FlightTrackerApp._check_flights` (its boolean result is
`len(current_flights) > 0` on the successor state and is omitted).
The poll is skipped inside the update interval; an exception raised by
`get_nearby_flights` (outcome `.error`) is caught, leaving flights and
index untouched; otherwise the index is reset to 0 when the length
changed, clamped to 0 when out of range, and the new list is installed. -/
def check_flights (dist : ℚ → ℚ → ℚ → ℚ → ℚ) (lat lon radius interval : ℚ)
    (s : AppState) (now : ℚ) (outcome : FetchOutcome) : AppState :=
  if now - s.last_flight_check < interval then s
  else
    let s1 := { s with last_flight_check := now }
    match get_nearby_flights dist lat lon radius outcome with
    | .error _ => s1
    | .ok new_flights =>
      let idx1 : ℤ :=
        if new_flights.length ≠ s1.current_flights.length then 0
        else s1.selected_flight_index
      let idx2 : ℤ := if (new_flights.length : ℤ) ≤ idx1 then 0 else idx1
      { s1 with selected_flight_index := idx2, current_flights := new_flights }

/-- Embeds `FlightTrackerApp._on_tap`: advance the index modulo the flight count,
only when more than one flight is shown. -/
def on_tap (s : AppState) : AppState :=
  if 1 < s.current_flights.length then
    { s with selected_flight_index :=
        (s.selected_flight_index + 1) % (s.current_flights.length : ℤ) }
  else s

/-- An event hitting the orchestrator state: a poll iteration (with the
wall-clock time and the feed oracle outcome) or a tap callback. -/
inductive AppEvent where
  | poll (now : ℚ) (outcome : FetchOutcome) : AppEvent
  | tap : AppEvent

/-- One event step of the orchestrator. -/
def stepApp (dist : ℚ → ℚ → ℚ → ℚ → ℚ) (lat lon radius interval : ℚ)
    (s : AppState) : AppEvent → AppState
  | .poll now outcome => check_flights dist lat lon radius interval s now outcome
  | .tap => on_tap s

/-- The orchestrator state after a sequence of events, from start-up. -/
def runApp (dist : ℚ → ℚ → ℚ → ℚ → ℚ) (lat lon radius interval : ℚ)
    (events : List AppEvent) : AppState :=
  events.foldl (stepApp dist lat lon radius interval) initialAppState

/-- The selected-flight-index invariant of the specification:
`0 <= selected_flight_index < max(1, len(current_flights))`. -/
def appInv (s : AppState) : Prop :=
  0 ≤ s.selected_flight_index ∧
    s.selected_flight_index < max 1 (s.current_flights.length : ℤ)

/-! ## display.py : RGB565 conversion -/

/-- Embeds `MHS35Display._rgb_to_565`. -/
def rgb_to_565 (r g b : ℕ) : ℕ :=
  ((r &&& 0xF8) <<< 8) ||| ((g &&& 0xFC) <<< 3) ||| (b >>> 3)

/-- An in-memory RGB image: dimensions plus the pixel accessor
`pixels[x, y] = (r, g, b)`. -/
structure RGBImage where
  width : ℕ
  height : ℕ
  pixel : ℕ → ℕ → ℕ × ℕ × ℕ

/-- A PIL `RGB` image holds one byte per channel. -/
def RGBImage.WellFormed (img : RGBImage) : Prop :=
  ∀ x y, (img.pixel x y).1 < 256 ∧ (img.pixel x y).2.1 < 256 ∧
    (img.pixel x y).2.2 < 256

/-- The numpy branch of `MHS35Display._convert_to_rgb565`: mask/shift the
channel planes of the image's own `(height, width)` array, combine, and
serialise row-major as little-endian 16-bit words (`astype('<u2')
.tobytes()`). -/
def convert_to_rgb565_numpy (img : RGBImage) : List ℕ :=
  (List.range img.height).flatMap (fun y =>
    (List.range img.width).flatMap (fun x =>
      let p := img.pixel x y
      let c := ((p.1 &&& 0xF8) <<< 8) ||| ((p.2.1 &&& 0xFC) <<< 3) ||| (p.2.2 >>> 3)
      [c % 256, c / 256 % 256]))

/-- The pure-Python fallback branch of `MHS35Display._convert_to_rgb565`:
a scalar loop over `self.width` × `self.height` — the DISPLAY's
dimensions, not the image's — writing each packed pixel low byte first. -/
def convert_to_rgb565_python (width height : ℕ) (img : RGBImage) : List ℕ :=
  (List.range height).flatMap (fun y =>
    (List.range width).flatMap (fun x =>
      let p := img.pixel x y
      let color := rgb_to_565 p.1 p.2.1 p.2.2
      [color &&& 0xFF, (color >>> 8) &&& 0xFF]))

/-! ## ui.py : IdleScreen page cycling -/

/-- Embeds `IdleScreen.WEATHER_PAGES`. -/
def WEATHER_PAGES : ℤ := 3

/-- Embeds `IdleScreen.PAGE_CYCLE_SECONDS`. -/
def PAGE_CYCLE_SECONDS : ℚ := 5

/-- The per-instance fields assigned in `IdleScreen.__init__` (written
once and never read afterwards). -/
structure IdleScreenState where
  current_page : ℤ
  last_page_change : ℚ
deriving DecidableEq

/-- Embeds `IdleScreen._get_current_page`, the page selector used by
`IdleScreen.render`: `int(now / PAGE_CYCLE_SECONDS) % WEATHER_PAGES` with
`now = time.time()`. -/
def get_current_page (_s : IdleScreenState) (now : ℚ) : ℤ :=
  pyTrunc (now / PAGE_CYCLE_SECONDS) % WEATHER_PAGES


/-! ## Concrete sample data, used by witnesses and counterexamples -/

/-- A concrete `WeatherInfo` value (21.0 °C, "Slight rain"), used by
witnesses. -/
def wSample : WeatherInfo :=
  { temperature_c := 21, temperature_f := 698/10, feels_like_c := 20,
    humidity := 55, wind_speed_kmh := 12, wind_direction := 180,
    wind_gusts_kmh := 20, pressure_hpa := 1013, weather_code := 61,
    weather_description := "Slight rain", is_day := true,
    sunrise := "07:45", sunset := "18:30", temp_max_c := 25,
    temp_min_c := 15, precipitation_mm := 0, last_updated := 1700000000 }

/-- A second concrete `WeatherInfo` value, distinct from `wSample`. -/
def wSample2 : WeatherInfo := { wSample with temperature_c := 5 }

/-- The 19 slots of a well-formed feed entry at position `(lat, lon)`, in
the positional FR24 array layout decoded by `get_nearby_flights`. -/
def entryFields (lat lon : ℚ) : List JVal :=
  [.jstr ("4CA123"), .jnum lat, .jnum lon, .jnum 90, .jnum 35000,
    .jnum 450, .jstr ("1234"), .jstr ("T-MLAT"), .jstr ("A320"),
    .jstr ("G-ABCD"), .jnum 1700000000, .jstr ("LHR"), .jstr ("JFK"),
    .jstr ("BA123"), .jnum 0, .jnum (-64), .jstr ("BAW123"), .jnum 0,
    .jstr ("BAW")]

/-- A well-formed feed entry at position `(lat, lon)`. -/
def entryAt (lat lon : ℚ) : JVal := .jlist (entryFields lat lon)

/-- The `FlightInfo` record that decoding `entryAt lat lon` produces, with
stored distance `dkm`. -/
def recAt (lat lon dkm : ℚ) : FlightInfo :=
  { flight_number := "BA123", callsign := "BAW123", aircraft_type := "A320",
    airline := "BAW", origin := "LHR", destination := "JFK",
    altitude_ft := 35000, ground_speed_kts := 450, heading := 90,
    latitude := lat, longitude := lon, vertical_speed := -64,
    distance_km := dkm, registration := "G-ABCD", squawk := "1234" }

/-- A 2×1 image (red pixel, green pixel). -/
def imgCE : RGBImage :=
  { width := 2, height := 1,
    pixel := fun x _ => if x = 0 then (255, 0, 0) else (0, 255, 0) }

/-- A 1×1 mid-grey image. -/
def img1 : RGBImage := { width := 1, height := 1, pixel := fun _ _ => (100, 150, 200) }

/-! ## Bridging lemmas -/

theorem ratFloor_eq_floor (q : ℚ) : ratFloor q = ⌊q⌋ := Rat.floor_def.symm

theorem pyTrunc_of_nonneg {q : ℚ} (h : 0 ≤ q) : pyTrunc q = ⌊q⌋ := by
  rw [pyTrunc, if_pos h, ratFloor_eq_floor]

/-! ## Claim C8 : tap debouncing (touch.py) -/

/--
Claim C8 states that the debouncer invokes the callback exactly when at
least 300 ms have elapsed.  This is false at the boundary: the code tests
`now - self.last_tap_time > self.debounce_ms` strictly, so a touch-up
arriving exactly 300 ms after the last accepted tap (here: previous tap at
0 ms, touch-up at 300 ms) is suppressed, while the claim says it must
invoke the callback.
-/
theorem C8_boundary_counterexample :
    (300 : ℚ) - 0 ≥ 300 ∧ (on_touch ⟨0, 300⟩ 300).2 = false := by
  constructor
  · norm_num
  · rw [on_touch, if_neg]
    norm_num

/--
Claim C8, amended: the tap debouncer suppresses the callback exactly when
at most 300 ms (the configured `debounce_ms`) has elapsed since the
previous accepted tap; a touch-up arriving strictly more than 300 ms after
it invokes the callback and becomes the new reference tap, and a suppressed
touch-up leaves the detector state unchanged.
-/
theorem C8_debounce (t now : ℚ) :
    ((on_touch ⟨t, 300⟩ now).2 = true ↔ 300 < now - t) ∧
    (300 < now - t → on_touch ⟨t, 300⟩ now = (⟨now, 300⟩, true)) ∧
    (now - t ≤ 300 → on_touch ⟨t, 300⟩ now = (⟨t, 300⟩, false)) := by
  refine ⟨?_, ?_, ?_⟩
  · rw [on_touch]
    constructor
    · intro h
      by_contra hlt
      rw [if_neg hlt] at h
      exact Bool.false_ne_true h
    · intro h
      rw [if_pos h]
  · intro h
    rw [on_touch, if_pos h]
  · intro h
    rw [on_touch, if_neg (not_lt.mpr h)]

/-- Witness for C8: a tap at 301 ms after a reference tap at 0 is accepted
and updates the reference. -/
theorem C8_debounce_witness :
    (on_touch ⟨0, 300⟩ 301).2 = true ∧ on_touch ⟨0, 300⟩ 301 = (⟨301, 300⟩, true) := by
  have h := C8_debounce 0 301
  exact ⟨(h.1).mpr (by norm_num), h.2.1 (by norm_num)⟩

/-! ## Claim C9 : idle auxiliary page (ui.py) -/

/--
Claim C9: the idle screen's auxiliary weather page is a pure function of
wall-clock time: for every non-negative time `t` the page shown by
`IdleScreen._get_current_page` is `⌊t / 5⌋ % 3`, independent of the
per-instance fields (`current_page`, `last_page_change`, which `render`
never reads) and hence of how many times `render` has been called.
-/
theorem C9_idle_page_pure (s1 s2 : IdleScreenState) (t : ℚ) (ht : 0 ≤ t) :
    get_current_page s1 t = ⌊t / 5⌋ % 3 ∧
    get_current_page s1 t = get_current_page s2 t := by
  constructor
  · rw [get_current_page, PAGE_CYCLE_SECONDS, WEATHER_PAGES,
      pyTrunc_of_nonneg (by positivity)]
  · rfl

unseal Rat.add Rat.sub Rat.mul Rat.inv Rat.ofScientific in
/-- Witness for C9: at `t = 17` seconds every instance shows page
`⌊17 / 5⌋ % 3 = 0`. -/
theorem C9_idle_page_pure_witness :
    get_current_page ⟨0, 0⟩ 17 = 0 ∧
    get_current_page ⟨0, 0⟩ 17 = get_current_page ⟨7, 99⟩ 17 := by
  have h := C9_idle_page_pure ⟨0, 0⟩ ⟨7, 99⟩ 17 (by norm_num)
  refine ⟨h.1.trans ?_, h.2⟩
  rw [← ratFloor_eq_floor]
  decide

/-! ## Claim C2 : weather cache policy (weather.py) -/

/--
Claim C2: starting from the state left by a successful fetch of `w` at
time `t0` (cache `some w`, timestamp `t0`), (a) any two calls without
`force_refresh` within `cache_duration` of `t0` both return the cached
`w` unchanged, leave the state untouched and perform no network access
(fetch flag `false`); (b) a call at or after the window's end calls
`_fetch_weather` (fetch flag `true`), and on success installs the new
value and timestamp; (c) for ANY state, a call whose refetch fails
(`fetch_result = none`) returns the currently cached value and leaves the
cache and its timestamp unmodified; and (d) `force_refresh` always
bypasses the cache window.
-/
theorem C2_weather_cache_policy (d t0 t1 t2 : ℚ) (w w1 : WeatherInfo)
    (r1 r2 : Option WeatherInfo) (s : WeatherClientState) (force : Bool)
    (h1 : t1 - t0 < d) (h2 : t2 - t0 < d) :
    (get_weather ⟨d, some w, t0⟩ t1 false r1 = (some w, ⟨d, some w, t0⟩, false) ∧
      get_weather ⟨d, some w, t0⟩ t2 false r2 = (some w, ⟨d, some w, t0⟩, false)) ∧
    (∀ t3, d ≤ t3 - t0 →
      (get_weather ⟨d, some w, t0⟩ t3 false r1).2.2 = true ∧
      get_weather ⟨d, some w, t0⟩ t3 false (some w1) =
        (some w1, ⟨d, some w1, t3⟩, true)) ∧
    ((get_weather s t1 force none).1 = s.cached_weather ∧
      (get_weather s t1 force none).2.1 = s) ∧
    (∀ fr, (get_weather s t1 true fr).2.2 = true) := by
  refine ⟨⟨?_, ?_⟩, ?_, ?_, ?_⟩
  · unfold get_weather
    rw [if_pos ⟨rfl, rfl, h1⟩]
  · unfold get_weather
    rw [if_pos ⟨rfl, rfl, h2⟩]
  · intro t3 h3
    have hneg : ¬(false = false ∧ (some w).isSome = true ∧ t3 - t0 < d) := by
      rintro ⟨-, -, hlt⟩
      exact absurd h3 (not_le.mpr hlt)
    constructor
    · unfold get_weather
      rw [if_neg hneg]
      cases r1 <;> rfl
    · unfold get_weather
      rw [if_neg hneg]
  · unfold get_weather
    split
    · exact ⟨rfl, rfl⟩
    · exact ⟨rfl, rfl⟩
  · intro fr
    have hneg : ¬(true = false ∧ s.cached_weather.isSome = true ∧ t1 - s.last_fetch < s.cache_duration) := by
      rintro ⟨h, -, -⟩
      exact absurd h (by decide)
    unfold get_weather
    rw [if_neg hneg]
    cases fr <;> rfl

/-- Witness for C2: with a 600 s window and a fetch at time 0, calls at
10 s and 20 s hit the cache, a failed call at 10 s leaves an arbitrary
state unchanged, and a forced call fetches. -/
theorem C2_weather_cache_policy_witness :
    (get_weather ⟨600, some wSample, 0⟩ 10 false none =
        (some wSample, ⟨600, some wSample, 0⟩, false) ∧
      get_weather ⟨600, some wSample, 0⟩ 20 false (some wSample2) =
        (some wSample, ⟨600, some wSample, 0⟩, false)) ∧
    (get_weather ⟨600, some wSample, 0⟩ 700 false (some wSample2) =
      (some wSample2, ⟨600, some wSample2, 700⟩, true)) := by
  have h := C2_weather_cache_policy 600 0 10 20 wSample wSample2 none
    (some wSample2) ⟨600, some wSample, 0⟩ false (by norm_num) (by norm_num)
  exact ⟨h.1, (h.2.1 700 (by norm_num)).2⟩

/-! ## Claim C3 : selected-flight-index invariant (main.py) -/

theorem appInv_check_flights (dist : ℚ → ℚ → ℚ → ℚ → ℚ) (la lo r iv : ℚ)
    (s : AppState) (now : ℚ) (o : FetchOutcome) (h : appInv s) :
    appInv (check_flights dist la lo r iv s now o) := by
  obtain ⟨h0, h1⟩ := h
  unfold check_flights
  split
  · exact ⟨h0, h1⟩
  · split
    · exact ⟨h0, h1⟩
    · unfold appInv
      dsimp only
      split_ifs <;> constructor <;> omega

theorem appInv_on_tap (s : AppState) (h : appInv s) : appInv (on_tap s) := by
  obtain ⟨h0, h1⟩ := h
  unfold on_tap
  split
  · rename_i hlen
    have hpos : (0 : ℤ) < (s.current_flights.length : ℤ) := by
      exact_mod_cast Nat.lt_of_lt_of_le Nat.one_pos (le_of_lt hlen)
    constructor
    · exact Int.emod_nonneg _ (ne_of_gt hpos)
    · have hm := Int.emod_lt_of_pos (s.selected_flight_index + 1) hpos
      have : (1 : ℤ) < (s.current_flights.length : ℤ) := by exact_mod_cast hlen
      simp only [appInv]
      omega
  · exact ⟨h0, h1⟩

theorem appInv_stepApp (dist : ℚ → ℚ → ℚ → ℚ → ℚ) (la lo r iv : ℚ)
    (s : AppState) (e : AppEvent) (h : appInv s) :
    appInv (stepApp dist la lo r iv s e) := by
  cases e with
  | poll now o => exact appInv_check_flights dist la lo r iv s now o h
  | tap => exact appInv_on_tap s h

/--
Claim C3: from start-up, after any sequence of poll steps
(`_check_flights`, with arbitrary wall-clock times and feed outcomes) and
tap callbacks (`_on_tap`), the selected-flight index satisfies
`0 ≤ index < max 1 (number of flights)`; the invariant is preserved by
every single step; a poll that actually fetches resets the index to 0
whenever the polled list's length differs from the previous list's
length; a tap on an empty flight list does nothing; and a tap on a
non-empty list advances the index modulo the flight count (for a
one-flight list the code skips the update, which coincides with advancing
`0` modulo `1`).
-/
theorem C3_selected_index_invariant (dist : ℚ → ℚ → ℚ → ℚ → ℚ)
    (la lo r iv : ℚ) :
    (∀ events, appInv (runApp dist la lo r iv events)) ∧
    (∀ s e, appInv s → appInv (stepApp dist la lo r iv s e)) ∧
    (∀ s now o nf, ¬ now - s.last_flight_check < iv →
      get_nearby_flights dist la lo r o = .ok nf →
      nf.length ≠ s.current_flights.length →
      (check_flights dist la lo r iv s now o).selected_flight_index = 0) ∧
    (∀ s : AppState, s.current_flights = [] → on_tap s = s) ∧
    (∀ s : AppState, appInv s → s.current_flights ≠ [] →
      (on_tap s).selected_flight_index =
        (s.selected_flight_index + 1) % (s.current_flights.length : ℤ)) := by
  refine ⟨?_, ?_, ?_, ?_, ?_⟩
  · intro events
    rw [runApp]
    have haux : ∀ s, appInv s →
        appInv (List.foldl (stepApp dist la lo r iv) s events) := by
      induction events with
      | nil => intro s hs; exact hs
      | cons e es ih =>
        intro s hs
        rw [List.foldl_cons]
        exact ih _ (appInv_stepApp dist la lo r iv s e hs)
    exact haux initialAppState (by constructor <;> simp [initialAppState])
  · intro s e h
    exact appInv_stepApp dist la lo r iv s e h
  · intro s now o nf htime hok hne
    unfold check_flights
    rw [if_neg htime, hok]
    dsimp only
    rw [if_pos hne]
    split_ifs <;> rfl
  · intro s hempty
    unfold on_tap
    rw [if_neg]
    rw [hempty]
    simp
  · intro s h hne
    obtain ⟨h0, h1⟩ := h
    unfold on_tap
    split
    · rfl
    · rename_i hlen
      have hpos : 0 < s.current_flights.length := List.length_pos.mpr hne
      have hone : s.current_flights.length = 1 := by omega
      rw [hone]
      have : s.selected_flight_index = 0 := by
        rw [hone] at h1
        simp at h1
        omega
      rw [this]
      rfl

unseal Rat.add Rat.sub Rat.mul Rat.inv Rat.ofScientific in
/-- Witness for C3: a poll finding two flights keeps the invariant, and a
tap on a two-flight list advances the index from 0 to `(0 + 1) % 2`. -/
theorem C3_selected_index_invariant_witness :
    appInv (runApp (fun _ _ _ _ => 7) 10 20 50 5
      [.poll 10 (.success (.jobj [("a", entryAt 30 40), ("b", entryAt 31 41)])),
        .tap]) ∧
    (on_tap ⟨[recAt 30 40 7, recAt 31 41 7], 0, 10⟩).selected_flight_index =
      (0 + 1) % (2 : ℤ) := by
  constructor
  · exact (C3_selected_index_invariant (fun _ _ _ _ => 7) 10 20 50 5).1 _
  · have h := (C3_selected_index_invariant (fun _ _ _ _ => 7) 10 20 50 5).2.2.2.2
      ⟨[recAt 30 40 7, recAt 31 41 7], 0, 10⟩
      (by constructor <;> decide) (by decide)
    exact h

/-! ## Claims C4 and C5 : RGB565 conversion (display.py) -/

set_option maxRecDepth 4000 in
theorem land248_eq : ∀ r < 256, r &&& 248 = 8 * (r / 8) := by decide

set_option maxRecDepth 4000 in
theorem land252_eq : ∀ g < 256, g &&& 252 = 4 * (g / 4) := by decide

theorem land255_eq_mod (c : ℕ) : c &&& 255 = c % 256 := by
  have h := Nat.and_pow_two_sub_one_eq_mod c 8
  norm_num at h
  exact h

theorem land63_eq_mod (c : ℕ) : c &&& 63 = c % 64 := by
  have h := Nat.and_pow_two_sub_one_eq_mod c 6
  norm_num at h
  exact h

theorem land31_eq_mod (c : ℕ) : c &&& 31 = c % 32 := by
  have h := Nat.and_pow_two_sub_one_eq_mod c 5
  norm_num at h
  exact h

theorem shr8_land255_eq (c : ℕ) : (c >>> 8) &&& 255 = c / 256 % 256 := by
  rw [land255_eq_mod, Nat.shiftRight_eq_div_pow]

theorem shiftRight8_div (c : ℕ) : c >>> 8 = c / 256 := by
  rw [Nat.shiftRight_eq_div_pow]

theorem lor_decompose (a c e : ℕ) (hc : c < 64) (he : e < 32) :
    (2048 * a) ||| (32 * c) ||| e = 2048 * a + 32 * c + e := by
  have h1 : (2:ℕ)^5 * c + e = 2^5 * c ||| e := Nat.mul_add_lt_is_or he c
  have h2 : (2:ℕ)^11 * a + (2^5 * c + e) = 2^11 * a ||| (2^5 * c + e) :=
    Nat.mul_add_lt_is_or (by omega) a
  calc (2048 * a) ||| (32 * c) ||| e
      = 2^11 * a ||| (2^5 * c ||| e) := by rw [Nat.lor_assoc]; norm_num
    _ = 2^11 * a ||| (2^5 * c + e) := by rw [← h1]
    _ = 2^11 * a + (2^5 * c + e) := by rw [← h2]
    _ = 2048 * a + 32 * c + e := by ring

theorem rgb565_eq_arith (r g b : ℕ) (hr : r < 256) (hg : g < 256) (hb : b < 256) :
    rgb_to_565 r g b = 2048 * (r / 8) + 32 * (g / 4) + b / 8 := by
  rw [rgb_to_565, land248_eq r hr, land252_eq g hg, Nat.shiftLeft_eq,
    Nat.shiftLeft_eq, Nat.shiftRight_eq_div_pow]
  have e1 : 8 * (r / 8) * 2^8 = 2048 * (r / 8) := by ring
  have e2 : 4 * (g / 4) * 2^3 = 32 * (g / 4) := by ring
  have e3 : b / 2^3 = b / 8 := by norm_num
  rw [e1, e2, e3]
  exact lor_decompose (r / 8) (g / 4) (b / 8) (by omega) (by omega)

/--
Claim C4: for all byte channels `r g b`, `_rgb_to_565` packs as
`((r & 0xF8) << 8) | ((g & 0xFC) << 3) | (b >> 3)` — which equals
`red << 11 | green << 5 | blue` over the truncated 5/6/5-bit components —
unpacking the top bits reproduces `(r & 0xF8, g & 0xFC, b & 0xF8)`, and
the two bytes the scalar serialiser writes for a pixel are the packed
value's low byte followed by its high byte (little-endian).
-/
theorem C4_rgb565_roundtrip (r g b : ℕ) (hr : r < 256) (hg : g < 256)
    (hb : b < 256) :
    rgb_to_565 r g b = ((r >>> 3) <<< 11) ||| ((g >>> 2) <<< 5) ||| (b >>> 3) ∧
    ((rgb_to_565 r g b) >>> 11) <<< 3 = r &&& 0xF8 ∧
    (((rgb_to_565 r g b) >>> 5) &&& 0x3F) <<< 2 = g &&& 0xFC ∧
    ((rgb_to_565 r g b) &&& 0x1F) <<< 3 = b &&& 0xF8 ∧
    [(rgb_to_565 r g b) &&& 0xFF, ((rgb_to_565 r g b) >>> 8) &&& 0xFF] =
      [(rgb_to_565 r g b) % 256, rgb_to_565 r g b / 256] ∧
    ((rgb_to_565 r g b) &&& 0xFF) + 256 * (((rgb_to_565 r g b) >>> 8) &&& 0xFF) =
      rgb_to_565 r g b := by
  have harith := rgb565_eq_arith r g b hr hg hb
  have hlt : rgb_to_565 r g b < 65536 := by rw [harith]; omega
  refine ⟨?_, ?_, ?_, ?_, ?_, ?_⟩
  · rw [harith, Nat.shiftRight_eq_div_pow, Nat.shiftRight_eq_div_pow,
      Nat.shiftLeft_eq, Nat.shiftLeft_eq, Nat.shiftRight_eq_div_pow]
    have e1 : r / 2^3 * 2^11 = 2048 * (r / 8) := by norm_num; ring
    have e2 : g / 2^2 * 2^5 = 32 * (g / 4) := by norm_num; ring
    have e3 : b / 2^3 = b / 8 := by norm_num
    rw [e1, e2, e3]
    exact (lor_decompose (r / 8) (g / 4) (b / 8) (by omega) (by omega)).symm
  · rw [harith, Nat.shiftRight_eq_div_pow, Nat.shiftLeft_eq, land248_eq r hr]
    norm_num
    omega
  · rw [harith, Nat.shiftRight_eq_div_pow, land63_eq_mod, Nat.shiftLeft_eq,
      land252_eq g hg]
    norm_num
    omega
  · rw [harith, land31_eq_mod, Nat.shiftLeft_eq, land248_eq b hb]
    norm_num
    omega
  · rw [land255_eq_mod, shr8_land255_eq]
    have : rgb_to_565 r g b / 256 % 256 = rgb_to_565 r g b / 256 := by omega
    rw [this]
  · rw [land255_eq_mod, shr8_land255_eq]
    omega

/-- Witness for C4 at `(r, g, b) = (250, 100, 7)`. -/
theorem C4_rgb565_roundtrip_witness :
    rgb_to_565 250 100 7 = ((250 >>> 3) <<< 11) ||| ((100 >>> 2) <<< 5) ||| (7 >>> 3) ∧
    ((rgb_to_565 250 100 7) >>> 11) <<< 3 = 250 &&& 0xF8 ∧
    (((rgb_to_565 250 100 7) >>> 5) &&& 0x3F) <<< 2 = 100 &&& 0xFC ∧
    ((rgb_to_565 250 100 7) &&& 0x1F) <<< 3 = 7 &&& 0xF8 ∧
    [(rgb_to_565 250 100 7) &&& 0xFF, ((rgb_to_565 250 100 7) >>> 8) &&& 0xFF] =
      [(rgb_to_565 250 100 7) % 256, rgb_to_565 250 100 7 / 256] ∧
    ((rgb_to_565 250 100 7) &&& 0xFF) + 256 * (((rgb_to_565 250 100 7) >>> 8) &&& 0xFF) =
      rgb_to_565 250 100 7 :=
  C4_rgb565_roundtrip 250 100 7 (by decide) (by decide) (by decide)

/--
Claim C5 states that the numpy path and the pure-Python fallback of
`_convert_to_rgb565` agree on every RGB image, including the scaled HDMI
mirror frame whose dimensions differ from the display's.  This is false:
the fallback loops over the display's `self.width`/`self.height` while
the numpy path uses the image's own shape, so on a 2×1 image with a 1×1
display configuration the two byte strings differ (4 bytes versus 2).
-/
theorem C5_conversion_counterexample :
    convert_to_rgb565_numpy imgCE ≠ convert_to_rgb565_python 1 1 imgCE := by
  decide

/--
Claim C5, amended: the numpy-vectorised path and the pure-Python scalar
fallback of `_convert_to_rgb565` return the same byte string for every
image whose dimensions equal the display's configured width and height
(in particular the primary 480×320 surface); for an image of any other
size — such as the scaled HDMI mirror frame — the fallback reads the
wrong region and produces a different byte string.
-/
theorem C5_conversion_equivalence (img : RGBImage) (w h : ℕ)
    (hw : w = img.width) (hh : h = img.height) :
    convert_to_rgb565_numpy img = convert_to_rgb565_python w h img := by
  subst hw
  subst hh
  unfold convert_to_rgb565_numpy convert_to_rgb565_python rgb_to_565
  simp only [land255_eq_mod, shiftRight8_div]

/-- Witness for C5 on a 1×1 image matching a 1×1 display. -/
theorem C5_conversion_equivalence_witness :
    convert_to_rgb565_numpy img1 = convert_to_rgb565_python 1 1 img1 :=
  C5_conversion_equivalence img1 1 1 rfl rfl

/-! ## Claims C1, C6, C7, C10 : the flight pipeline (flight_tracker.py) -/

theorem haversineR_self (la lo : ℝ) : haversineR la lo la lo = 0 := by
  unfold haversineR radiansR atan2R
  simp only [sub_self, zero_mul, zero_div, Real.sin_zero, ne_eq,
    OfNat.ofNat_ne_zero, not_false_eq_true, zero_pow, mul_zero, add_zero,
    zero_add, Real.sqrt_zero, sub_zero, Real.sqrt_one, zero_lt_one, if_pos,
    div_one, Real.arctan_zero]

theorem decodeFields_ok_some {dist : ℚ → ℚ → ℚ → ℚ → ℚ} {la lo r : ℚ}
    {l : List JVal} {rec : FlightInfo}
    (h : decodeFields dist la lo r l = .ok (some rec)) :
    ¬(rec.latitude = 0 ∧ rec.longitude = 0) ∧
    ¬ r < dist la lo rec.latitude rec.longitude ∧
    rec.distance_km = pythonRound1 (dist la lo rec.latitude rec.longitude) := by
  unfold decodeFields at h
  split at h
  · exact absurd h (by simp)
  · split at h
    · exact absurd h (by simp)
    · split at h
      · exact absurd h (by simp)
      · rename_i lat lon hz
        simp only [] at h
        split at h
        · exact absurd h (by simp)
        · rename_i hd
          split at h
          · exact absurd h (by simp)
          · exact absurd h (by simp)
          · exact absurd h (by simp)
          · exact absurd h (by simp)
          · simp only [Except.ok.injEq, Option.some.injEq] at h
            subst h
            exact ⟨hz, hd, rfl⟩

theorem processEntry_some {dist : ℚ → ℚ → ℚ → ℚ → ℚ} {la lo r : ℚ}
    {v : JVal} {rec : FlightInfo}
    (h : processEntry dist la lo r v = some rec) :
    ∃ l, v = .jlist l ∧ decodeFields dist la lo r l = .ok (some rec) := by
  cases v with
  | jlist l =>
    refine ⟨l, rfl, ?_⟩
    have h2 : (if l.length < 14 then none
        else match decodeFields dist la lo r l with
          | .ok r => r
          | .error _ => none) = some rec := h
    by_cases hlen : l.length < 14
    · rw [if_pos hlen] at h2
      cases h2
    · rw [if_neg hlen] at h2
      cases hd : decodeFields dist la lo r l with
      | ok o =>
        rw [hd] at h2
        simp only [] at h2
        rw [h2]
      | error e =>
        rw [hd] at h2
        simp only [] at h2
        simp at h2
  | jnull => exact absurd h (by simp [processEntry])
  | jbool b => exact absurd h (by simp [processEntry])
  | jnum q => exact absurd h (by simp [processEntry])
  | jstr s => exact absurd h (by simp [processEntry])
  | jobj f => exact absurd h (by simp [processEntry])

theorem get_nearby_ok_mem {dist : ℚ → ℚ → ℚ → ℚ → ℚ} {la lo r : ℚ}
    {o : FetchOutcome} {flights : List FlightInfo} {rec : FlightInfo}
    (hok : get_nearby_flights dist la lo r o = .ok flights)
    (hmem : rec ∈ flights) :
    ∃ l, decodeFields dist la lo r l = .ok (some rec) := by
  cases o with
  | requestError =>
    injection hok with hok
    subst hok
    cases hmem
  | jsonError =>
    injection hok with hok
    subst hok
    cases hmem
  | success data =>
    cases data with
    | jobj items =>
      simp only [get_nearby_flights, Except.ok.injEq] at hok
      subst hok
      have hmem2 := (List.mem_insertionSort distLe).mp hmem
      obtain ⟨kv, -, hkv⟩ := List.mem_filterMap.mp hmem2
      obtain ⟨l, -, hl⟩ := processEntry_some hkv
      exact ⟨l, hl⟩
    | jnull => exact absurd hok (by simp [get_nearby_flights])
    | jbool b => exact absurd hok (by simp [get_nearby_flights])
    | jnum q => exact absurd hok (by simp [get_nearby_flights])
    | jstr s => exact absurd hok (by simp [get_nearby_flights])
    | jlist l => exact absurd hok (by simp [get_nearby_flights])

/--
Claim C1, amended: for every distance function (the code instantiates the
haversine formula), observer position, radius and feed outcome, every
record returned by `get_nearby_flights` lies at distance AT MOST
`radius_km` from the observer; a record at exactly `radius_km` is
included, not excluded — the filter `if distance > self.radius_km:
continue` drops only entries strictly beyond the radius (see the
boundary counterexample).
-/
theorem C1_radius_filter (dist : ℚ → ℚ → ℚ → ℚ → ℚ) (la lo r : ℚ)
    (o : FetchOutcome) (flights : List FlightInfo) (rec : FlightInfo)
    (hok : get_nearby_flights dist la lo r o = .ok flights)
    (hmem : rec ∈ flights) :
    dist la lo rec.latitude rec.longitude ≤ r := by
  obtain ⟨l, hl⟩ := get_nearby_ok_mem hok hmem
  exact not_lt.mp (decodeFields_ok_some hl).2.1

unseal Rat.add Rat.sub Rat.mul Rat.inv Rat.ofScientific in
/-- Witness for C1: with constant distance 7 and radius 50 the single
decoded record is returned and its distance is within the radius. -/
theorem C1_radius_filter_witness : (7 : ℚ) ≤ 50 :=
  C1_radius_filter (fun _ _ _ _ => 7) 10 20 50
    (.success (.jobj [("a", entryAt 30 40)])) [recAt 30 40 7] (recAt 30 40 7)
    (by decide) (by decide)

unseal Rat.add Rat.sub Rat.mul Rat.inv Rat.ofScientific in
/--
Claim C1 additionally states that a record whose distance equals exactly
`radius_km` is excluded.  This is false: with observer `(10, 20)`, radius
`0`, and a feed entry at the observer's own position — where the code's
haversine distance is exactly `0`, the radius — the record IS returned.
The distance function `fun _ _ _ _ => 0` used to instantiate the pipeline
agrees with the haversine formula on this input (first conjunct).
-/
theorem C1_boundary_counterexample :
    haversineR 10 20 10 20 = 0 ∧
    get_nearby_flights (fun _ _ _ _ => 0) 10 20 0
      (.success (.jobj [("a", entryAt 10 20)])) = .ok [recAt 10 20 0] ∧
    (recAt 10 20 0).distance_km = 0 :=
  ⟨haversineR_self 10 20, by decide, by decide⟩

/--
Claim C6, amended: `get_nearby_flights` catches request failures and
JSON-decoding failures (returning the empty list) and every JSON OBJECT
response yields a list, with each malformed individual entry skipped
rather than aborting the call; however, a syntactically valid JSON
response that is not an object (e.g. a JSON array) makes `data.items()`
raise an `AttributeError` that does escape the function's boundary (see
the counterexample; the caller `_check_flights` catches it).
-/
theorem C6_never_throws (dist : ℚ → ℚ → ℚ → ℚ → ℚ) (la lo r : ℚ) :
    (get_nearby_flights dist la lo r .requestError = .ok []) ∧
    (get_nearby_flights dist la lo r .jsonError = .ok []) ∧
    (∀ items, ∃ flights,
      get_nearby_flights dist la lo r (.success (.jobj items)) = .ok flights) ∧
    (∀ pre post k v, processEntry dist la lo r v = none →
      get_nearby_flights dist la lo r (.success (.jobj (pre ++ (k, v) :: post))) =
        get_nearby_flights dist la lo r (.success (.jobj (pre ++ post)))) := by
  refine ⟨rfl, rfl, fun items => ⟨_, rfl⟩, ?_⟩
  intro pre post k v h
  simp [get_nearby_flights, List.filterMap_append, List.filterMap_cons, h]

/--
Claim C6 states that `get_nearby_flights` returns a list for EVERY JSON
response value.  This is false for a response that is a JSON array (for
instance `[]`): `data.items()` raises an `AttributeError` outside every
`try` block of the function.
-/
theorem C6_nonobject_counterexample :
    get_nearby_flights (fun _ _ _ _ => 0) 0 0 50 (.success (.jlist [])) =
      .error .attributeError := rfl

/-- Witness for C6: failures yield `[]`, and a malformed entry (`None` in
place of the positional array) is skipped without affecting the rest. -/
theorem C6_never_throws_witness :
    get_nearby_flights (fun _ _ _ _ => 0) 0 0 50 .requestError = .ok [] ∧
    get_nearby_flights (fun _ _ _ _ => 0) 0 0 50
        (.success (.jobj [("a", .jnull), ("b", .jnull)])) =
      get_nearby_flights (fun _ _ _ _ => 0) 0 0 50
        (.success (.jobj [("b", .jnull)])) := by
  refine ⟨(C6_never_throws (fun _ _ _ _ => 0) 0 0 50).1, ?_⟩
  have h := (C6_never_throws (fun _ _ _ _ => 0) 0 0 50).2.2.2
    [] [("b", .jnull)] "a" .jnull rfl
  simpa using h

/--
Claim C7: for every distance function, observer, radius and feed outcome,
the list returned by `get_nearby_flights` is sorted non-decreasing by the
stored `distance_km` (any earlier record's distance is at most any later
record's, consecutive ones in particular).
-/
theorem C7_sorted_by_distance (dist : ℚ → ℚ → ℚ → ℚ → ℚ) (la lo r : ℚ)
    (o : FetchOutcome) (flights : List FlightInfo)
    (hok : get_nearby_flights dist la lo r o = .ok flights) :
    ∀ (i j : Fin flights.length), i < j →
      (flights.get i).distance_km ≤ (flights.get j).distance_km := by
  have hsorted : List.Sorted distLe flights := by
    cases o with
    | requestError =>
      injection hok with hok
      subst hok
      exact List.sorted_nil
    | jsonError =>
      injection hok with hok
      subst hok
      exact List.sorted_nil
    | success data =>
      cases data with
      | jobj items =>
        simp only [get_nearby_flights, Except.ok.injEq] at hok
        subst hok
        exact List.sorted_insertionSort distLe _
      | jnull => exact absurd hok (by simp [get_nearby_flights])
      | jbool b => exact absurd hok (by simp [get_nearby_flights])
      | jnum q => exact absurd hok (by simp [get_nearby_flights])
      | jstr s => exact absurd hok (by simp [get_nearby_flights])
      | jlist l => exact absurd hok (by simp [get_nearby_flights])
  exact fun i j hij => List.pairwise_iff_get.mp hsorted i j hij

unseal Rat.add Rat.sub Rat.mul Rat.inv Rat.ofScientific in
/-- Witness for C7: two in-radius entries at distances 5 and 3 come back
sorted as `[3, 5]`. -/
theorem C7_sorted_by_distance_witness : (3 : ℚ) ≤ 5 :=
  C7_sorted_by_distance (fun _ _ la2 _ => la2) 10 20 50
    (.success (.jobj [("a", entryAt 5 40), ("b", entryAt 3 41)]))
    [recAt 3 41 3, recAt 5 40 5] (by decide)
    ⟨0, by decide⟩ ⟨1, by decide⟩ (by decide)

/--
Claim C10: a feed entry whose decoded position is exactly `(0, 0)` —
including entries whose latitude or longitude slot is missing/falsy and
therefore coerced to `0` — is excluded from the result, regardless of the
observer position, the radius and the computed distance: the entry loop
skips it (first conjunct), so no returned record ever sits at `(0, 0)`
(second conjunct).
-/
theorem C10_origin_sentinel_dropped (dist : ℚ → ℚ → ℚ → ℚ → ℚ) (la lo r : ℚ) :
    (∀ l : List JVal, coordField l 1 = .ok 0 → coordField l 2 = .ok 0 →
      processEntry dist la lo r (.jlist l) = none) ∧
    (∀ o flights rec, get_nearby_flights dist la lo r o = .ok flights →
      rec ∈ flights → ¬(rec.latitude = 0 ∧ rec.longitude = 0)) := by
  constructor
  · intro l h1 h2
    by_cases hlen : l.length < 14
    · simp [processEntry, hlen]
    · have hdec : decodeFields dist la lo r l = .ok none := by
        unfold decodeFields
        rw [h1, h2]
        rfl
      simp [processEntry, hlen, hdec]
  · intro o flights rec hok hmem
    obtain ⟨l, hl⟩ := get_nearby_ok_mem hok hmem
    exact (decodeFields_ok_some hl).1

unseal Rat.add Rat.sub Rat.mul Rat.inv Rat.ofScientific in
/-- Witness for C10: an otherwise well-formed entry whose position slots
hold the falsy `0` decodes to `(0, 0)` and is dropped, and the record
returned for an ordinary entry does not sit at `(0, 0)`. -/
theorem C10_origin_sentinel_dropped_witness :
    processEntry (fun _ _ _ _ => 0) 10 20 50 (.jlist (entryFields 0 0)) = none ∧
    ¬((recAt 30 40 7).latitude = 0 ∧ (recAt 30 40 7).longitude = 0) := by
  constructor
  · exact (C10_origin_sentinel_dropped (fun _ _ _ _ => 0) 10 20 50).1
      (entryFields 0 0) (by decide) (by decide)
  · exact (C10_origin_sentinel_dropped (fun _ _ _ _ => 7) 10 20 50).2
      (.success (.jobj [("a", entryAt 30 40)])) [recAt 30 40 7] (recAt 30 40 7)
      (by decide) (by decide)
